import Mathlib

/-!
Shallow embedding of the reconciliation/merge engine of the amiysync
repository (src/src/merge.js, src/src/reconcileRunner.js).

The source file src/src/merge.js contains two variants of the merge engine,
separated by a document separator:
* variant 1 (lines 1-176): `determineStatus` checks `isCod` first; the merge
  loop builds `shiprocketMapById` but looks settlements up in the undefined
  variable `shiprocketMap`.
* variant 2 (lines 177-448): `determineStatus` checks `hasSettlement` first;
  the merge loop uses three-key matching (cef id / order id / ute).

JavaScript machine values that flow through this code are strings, numbers
and `undefined`; they are modelled by `JSVal` with numbers as rationals
(the numeric literals and the 0.5 tolerance are exact in binary floating
point, and none of the analyzed paths can overflow or produce NaN inside a
`JSVal.num`; the NaN produced by `parseFloat` on garbage is modelled by
`Option.none` and is immediately collapsed by the `|| 0` in the source).
JavaScript exceptions (`TypeError` on calling a string method of a
non-string, the `ReferenceError` of variant 1) are modelled by
`Except String`.
-/

deriving instance DecidableEq for Except

namespace AmiySync

/-- Model of a JavaScript value as it appears in the row arrays of
merge.js: a string, a (finite) number, or `undefined` for a missing
array slot. -/
inductive JSVal where
  | str : String → JSVal
  | num : ℚ → JSVal
  | undefined : JSVal
deriving DecidableEq

/-- JavaScript truthiness for the modelled values: `""`, `0` and
`undefined` are falsy, everything else is truthy. -/
def jsTruthy : JSVal → Bool
  | .str s => if s = "" then false else true
  | .num q => if q = 0 then false else true
  | .undefined => false

/-- The JavaScript `a || b` expression on modelled values. -/
def jsOr (a b : JSVal) : JSVal :=
  if jsTruthy a then a else b

/-- JavaScript number-to-string conversion, exact for integers (the only
numbers the analyzed code ever converts to keys); non-integral rationals
are rendered in num/den form, a placeholder never exercised by the
analyzed paths, which key only on string and integer cells. -/
def jsNumToString (q : ℚ) : String :=
  if q.den = 1 then toString q.num
  else toString q.num ++ "/" ++ toString q.den

/-- The JavaScript `String(x)` conversion on modelled values. -/
def jsToString : JSVal → String
  | .str s => s
  | .num q => jsNumToString q
  | .undefined => "undefined"

/-- `x.toUpperCase()`: succeeds on strings, throws a TypeError on numbers
and `undefined` (ASCII case mapping, which covers every string the code
compares against). -/
def jsToUpperCase : JSVal → Except String String
  | .str s => .ok s.toUpper
  | _ => .error "toUpperCase is not a function"

/-- `x.toLowerCase()`: succeeds on strings, throws a TypeError otherwise. -/
def jsToLowerCase : JSVal → Except String String
  | .str s => .ok s.toLower
  | _ => .error "toLowerCase is not a function"

/-- Does `needle` lead (start) `haystack`? Helper for `jsIncludes`. -/
def leadsWith : List Char → List Char → Bool
  | [], _ => true
  | _ :: _, [] => false
  | a :: as, b :: bs => if a = b then leadsWith as bs else false

/-- Does `needle` occur contiguously anywhere in `haystack`? -/
def occursIn (needle : List Char) : List Char → Bool
  | [] => leadsWith needle []
  | b :: bs => leadsWith needle (b :: bs) || occursIn needle bs

/-- `s.includes(sub)`: substring containment. -/
def jsIncludes (s sub : String) : Bool :=
  occursIn sub.data s.data

/-- `Math.abs` on the modelled numbers. -/
def jsAbs (q : ℚ) : ℚ :=
  if q < 0 then -q else q

/-- Fold a digit list into a natural number. -/
def digitsToNat (ds : List Char) : ℕ :=
  ds.foldl (fun n c => 10 * n + (c.toNat - '0'.toNat)) 0

/-- `parseFloat` on a string: skip leading whitespace, optional sign,
longest numeric prefix `digits [. digits] [e|E [sign] digits]`; `none`
models the NaN result when no digit is consumed.  (The `Infinity`
spelling is outside the model; no analyzed input uses it.) -/
def jsParseFloat (s : String) : Option ℚ :=
  let cs := s.data.dropWhile Char.isWhitespace
  let signAndRest : ℚ × List Char :=
    match cs with
    | '-' :: rest => (-1, rest)
    | '+' :: rest => (1, rest)
    | _ => (1, cs)
  let sign := signAndRest.1
  let cs1 := signAndRest.2
  let intPart := cs1.takeWhile Char.isDigit
  let cs2 := cs1.dropWhile Char.isDigit
  let fracPart :=
    match cs2 with
    | '.' :: rest => rest.takeWhile Char.isDigit
    | _ => []
  let cs3 :=
    match cs2 with
    | '.' :: rest => rest.dropWhile Char.isDigit
    | _ => cs2
  if intPart = [] ∧ fracPart = [] then none
  else
    let mantissa : ℚ :=
      (digitsToNat intPart : ℚ) + (digitsToNat fracPart : ℚ) / 10 ^ fracPart.length
    let expo : ℤ :=
      match cs3 with
      | 'e' :: '-' :: ds => if ds.takeWhile Char.isDigit = [] then 0 else
          -(digitsToNat (ds.takeWhile Char.isDigit) : ℤ)
      | 'E' :: '-' :: ds => if ds.takeWhile Char.isDigit = [] then 0 else
          -(digitsToNat (ds.takeWhile Char.isDigit) : ℤ)
      | 'e' :: '+' :: ds => (digitsToNat (ds.takeWhile Char.isDigit) : ℤ)
      | 'E' :: '+' :: ds => (digitsToNat (ds.takeWhile Char.isDigit) : ℤ)
      | 'e' :: ds => (digitsToNat (ds.takeWhile Char.isDigit) : ℤ)
      | 'E' :: ds => (digitsToNat (ds.takeWhile Char.isDigit) : ℤ)
      | _ => 0
    some (sign * mantissa * (10 : ℚ) ^ expo)

/-- `parseFloat(v)`: a number argument parses back to itself (JS converts
through its decimal string, which round-trips); otherwise the argument is
converted with `String(·)` and parsed. -/
def jsParseFloatVal : JSVal → Option ℚ
  | .num q => some q
  | v => jsParseFloat (jsToString v)

/-- The ubiquitous `parseFloat(x) || 0` idiom: NaN (and 0 itself, which
the `||` also maps to `0`) becomes 0. -/
def jsParseFloatOr0 (v : JSVal) : ℚ :=
  match jsParseFloatVal v with
  | none => 0
  | some q => q

/-- `determineStatus` of the FIRST merge.js variant (merge.js:8-23): a
non-COD order short-circuits to "Prepaid - No Remittance" before the
settlement and tolerance checks. -/
def determineStatus1 (isCod hasSettlement : Bool) (difference : ℚ) : String :=
  if !isCod then "Prepaid - No Remittance"
  else if !hasSettlement then "Pending Remittance"
  else if jsAbs difference < 1 / 2 then "Reconciled"
  else "Mismatch"

/-- `determineStatus` of the SECOND merge.js variant (merge.js:184-196):
the settlement check comes first; only the no-settlement branch consults
`isCod`, and any order with a settlement goes to the tolerance check. -/
def determineStatus2 (isCod hasSettlement : Bool) (difference : ℚ) : String :=
  if !hasSettlement then
    (if isCod then "Pending Remittance" else "Prepaid - No Remittance")
  else if jsAbs difference < 1 / 2 then "Reconciled"
  else "Mismatch"

/-- A row (order, settlement or output) is a JS array of values. -/
abbrev JSRow := List JSVal

/-- `row[i]` on a JS array: slots beyond the end are `undefined`. -/
def rowGet (row : JSRow) (i : ℕ) : JSVal :=
  row.getD i .undefined

/-- `String(row[0]).trim()` — the cef-id (channel order id) key of a
settlement row in the second variant (merge.js:222). -/
def cefKey (row : JSRow) : String :=
  (jsToString (rowGet row 0)).trim

/-- `String(row[1]).trim()` — the ute (secondary id) key (merge.js:223). -/
def uteKey (row : JSRow) : String :=
  (jsToString (rowGet row 1)).trim

/-- `String(row[2]).trim()` — the Shiprocket order-id key (merge.js:224). -/
def orderIdKey (row : JSRow) : String :=
  (jsToString (rowGet row 2)).trim

/-- A string-keyed JS `Map` holding settlement rows, as a lookup function. -/
def StrMap : Type :=
  String → Option JSRow

/-- The empty `new Map()`. -/
def emptyMap : StrMap :=
  fun _ => none

/-- `Map.prototype.set`: a later write overwrites an earlier one. -/
def mapSet (m : StrMap) (k : String) (v : JSRow) : StrMap :=
  fun x => if x = k then some v else m x

/-- The three settlement indexes of the second variant (merge.js:215-219). -/
structure SettlementMaps where
  byCefId : StrMap
  byOrderId : StrMap
  byUte : StrMap

/-- One iteration of the settlement indexing loop (merge.js:221-252):
each of the three trimmed keys is inserted into its map only when
non-empty (JS string truthiness). -/
def indexSettlementRow (maps : SettlementMaps) (row : JSRow) : SettlementMaps :=
  let m1 := if cefKey row ≠ "" then mapSet maps.byCefId (cefKey row) row else maps.byCefId
  let m2 := if orderIdKey row ≠ "" then mapSet maps.byOrderId (orderIdKey row) row else maps.byOrderId
  let m3 := if uteKey row ≠ "" then mapSet maps.byUte (uteKey row) row else maps.byUte
  ⟨m1, m2, m3⟩

/-- The Settlement Indexer of the second variant (merge.js:221-252). -/
def buildSettlementMaps (shiprocketRows : List JSRow) : SettlementMaps :=
  shiprocketRows.foldl indexSettlementRow ⟨emptyMap, emptyMap, emptyMap⟩

/-- The last row in input order whose `key` equals `k` (the reference
description of last-write-wins indexing, independent of the fold). -/
def lastKeyed (key : JSRow → String) (rows : List JSRow) (k : String) : Option JSRow :=
  rows.reverse.find? (fun r => key r == k)

/-- `orderName.replace(/^#/, "")`: strip a single leading '#'. -/
def stripLeadingHash (s : String) : String :=
  match s.data with
  | '#' :: rest => String.mk rest
  | _ => s

/-- The Matcher of the second variant (merge.js:320-350): three lookups
tried in fixed order, each guarded by non-emptiness of its key, returning
the first hit and the method name, or `(none, "none")`. -/
def matchSettlement (maps : SettlementMaps) (orderName orderIdString : String) :
    Option JSRow × String :=
  let orderNameWithoutHash :=
    if orderName ≠ "" then (stripLeadingHash orderName).trim else ""
  match (if orderNameWithoutHash ≠ "" then maps.byCefId orderNameWithoutHash else none) with
  | some r => (some r, "channel_order_id")
  | none =>
    match (if orderIdString ≠ "" then maps.byOrderId orderIdString else none) with
    | some r => (some r, "shiprocket_order_id")
    | none =>
      match (if orderName ≠ "" then maps.byUte orderName else none) with
      | some r => (some r, "ute")
      | none => (none, "none")

/-- The Order Classifier expression shared verbatim by both variants
(merge.js:88-90 and merge.js:310-312):
`codPrepaidStatus.toUpperCase() === "COD" || paymentMethod.toLowerCase().includes("cod")`.
JS `||` short-circuits, so `paymentMethod.toLowerCase()` (which throws on a
non-string) is only evaluated when the first disjunct is false. -/
def classifyCod (codPrepaidStatus paymentMethod : JSVal) : Except String Bool := do
  let up ← jsToUpperCase codPrepaidStatus
  if up = "COD" then
    return true
  else
    let low ← jsToLowerCase paymentMethod
    return jsIncludes low "cod"

/-- A settlement row whose channel (cef) id is "3272". -/
def demoSettlementA : JSRow :=
  [.str "3272", .str "UTEA", .str "111", .str "AWB1", .num 1190, .num 50,
   .num 25, .num 0, .num 0, .num 1040, .str "2024-01-18", .str "B1"]

/-- A settlement row whose Shiprocket order id is "999". -/
def demoSettlementB : JSRow :=
  [.str "8888", .str "UTEB", .str "999", .str "AWB2", .num 500, .num 40,
   .num 20, .num 0, .num 0, .num 440, .str "2024-01-19", .str "B2"]

/-- A settlement list offering both a channel-id match and a
settlement-order-id match for the demo order, on different records. -/
def demoSettlements : List JSRow :=
  [demoSettlementA, demoSettlementB]

/-- Result of successfully processing one order row in the second
variant's loop body (merge.js:300-422): the classification flag, the
match method, the status, and the output row that gets pushed. -/
structure ProcessedOrder where
  isCod : Bool
  matchMethod : String
  status : String
  row : JSRow
deriving DecidableEq

/-- The statistics accumulator of the second variant (merge.js:287-298). -/
structure Stats2 where
  totalOrders : ℕ
  cod : ℕ
  prepaid : ℕ
  reconciled : ℕ
  mismatches : ℕ
  pendingRemittance : ℕ
  prepaidNoRemittance : ℕ
  matchedByName : ℕ
  matchedById : ℕ
  matchedByNone : ℕ
deriving DecidableEq

/-- The pure remainder of the second variant's loop body once the order
is classified (merge.js:302-307 field extraction, merge.js:320-350
matching, merge.js:361-420 settlement extraction and row assembly): none
of these steps can throw on the modelled values. -/
def processedOf2 (maps : SettlementMaps) (orderRow : JSRow) (isCod : Bool) :
    ProcessedOrder :=
  let orderIdString := (jsToString (rowGet orderRow 0)).trim
  let orderName := (jsToString (rowGet orderRow 1)).trim
  let orderDate := jsOr (rowGet orderRow 2) (.str "")
  let codPrepaidStatus := jsOr (rowGet orderRow 8) (.str "Unknown")
  let shopifyTotal := jsParseFloatOr0 (rowGet orderRow 5)
  let sm := matchSettlement maps orderName orderIdString
  let settlement := sm.1
  let matchMethod := sm.2
  let hasSettlement := settlement.isSome
  let shiprocketNet := match settlement with
    | some s => jsParseFloatOr0 (rowGet s 9)
    | none => 0
  let awb := match settlement with
    | some s => jsOr (rowGet s 3) (.str "")
    | none => .str ""
  let shippingCharges := match settlement with
    | some s => jsParseFloatOr0 (rowGet s 5)
    | none => 0
  let codCharges := match settlement with
    | some s => jsParseFloatOr0 (rowGet s 6)
    | none => 0
  let adjustments := match settlement with
    | some s => jsParseFloatOr0 (rowGet s 7)
    | none => 0
  let rtoReversal := match settlement with
    | some s => jsParseFloatOr0 (rowGet s 8)
    | none => 0
  let remittanceDate := match settlement with
    | some s => jsOr (rowGet s 10) (.str "")
    | none => .str ""
  let batchId := match settlement with
    | some s => jsOr (rowGet s 11) (.str "")
    | none => .str ""
  let totalFreightCharge := match settlement with
    | some s => jsParseFloatOr0 (rowGet s 12)
    | none => 0
  let difference := shopifyTotal - shiprocketNet
  let status := determineStatus2 isCod hasSettlement difference
  ⟨isCod, matchMethod, status,
    [.str orderIdString, .str orderName, orderDate, .num shopifyTotal,
     .num shiprocketNet, .num difference, codPrepaidStatus, .str status,
     .str matchMethod, awb, .num shippingCharges, .num codCharges,
     .num adjustments, .num rtoReversal, .num totalFreightCharge,
     remittanceDate, batchId, .str ""]⟩

/-- One order through the second variant's try block: the classification
expression (merge.js:310-312) is the only step that can throw on the
modelled values — the field reads before it use only `String(·)`, `||`
and `parseFloat(·) || 0`, and everything after it is pure — so the body
factors into the classification followed by `processedOf2`. -/
def processOrder2 (maps : SettlementMaps) (orderRow : JSRow) :
    Except String ProcessedOrder :=
  match classifyCod (jsOr (rowGet orderRow 8) (.str "Unknown"))
      (jsOr (rowGet orderRow 4) (.str "")) with
  | .error e => .error e
  | .ok isCod => .ok (processedOf2 maps orderRow isCod)

/-- The COD/prepaid counter increments (merge.js:314-318). -/
def bumpClass2 (st : Stats2) (isCod : Bool) : Stats2 :=
  if isCod then {st with cod := st.cod + 1}
  else {st with prepaid := st.prepaid + 1}

/-- The match-method counter increments (merge.js:353-359). -/
def bumpMatch2 (st : Stats2) (matchMethod : String) : Stats2 :=
  if matchMethod = "channel_order_id" then {st with matchedByName := st.matchedByName + 1}
  else if matchMethod = "shiprocket_order_id" then {st with matchedById := st.matchedById + 1}
  else if matchMethod = "ute" then {st with matchedByNone := st.matchedByNone + 1}
  else st

/-- The status counter increments (merge.js:390-398). -/
def bumpStatus2 (st : Stats2) (status : String) : Stats2 :=
  if status = "Reconciled" then {st with reconciled := st.reconciled + 1}
  else if status = "Mismatch" then {st with mismatches := st.mismatches + 1}
  else if status = "Pending Remittance" then {st with pendingRemittance := st.pendingRemittance + 1}
  else if status = "Prepaid - No Remittance" then {st with prepaidNoRemittance := st.prepaidNoRemittance + 1}
  else st

/-- One iteration of the second variant's order loop (merge.js:300-429):
a throwing order is caught and skipped (merge.js:423-428); a processed
order bumps the class, match and status counters and pushes its row.
The counter increments of the body happen iff the body does not throw,
since the only throwing step precedes all of them. -/
def mergeStep2 (maps : SettlementMaps) (acc : List JSRow × Stats2)
    (orderRow : JSRow) : List JSRow × Stats2 :=
  match processOrder2 maps orderRow with
  | .error _ => acc
  | .ok p =>
    (acc.1 ++ [p.row], bumpStatus2 (bumpMatch2 (bumpClass2 acc.2 p.isCod) p.matchMethod) p.status)

/-- The second variant's `mergeDatasets` (merge.js:208-448).  The source
returns only the reconciliation array; the final value of its local
`stats` object (observable in the summary log) is returned alongside. -/
def mergeDatasets2 (shopifyRows shiprocketRows : List JSRow) :
    List JSRow × Stats2 :=
  let maps := buildSettlementMaps shiprocketRows
  shopifyRows.foldl (mergeStep2 maps) ([], ⟨shopifyRows.length, 0, 0, 0, 0, 0, 0, 0, 0, 0⟩)

/-- The output row an order would produce, `[]` for a throwing order. -/
def processedRow2 (maps : SettlementMaps) (orderRow : JSRow) : JSRow :=
  match processOrder2 maps orderRow with
  | .ok p => p.row
  | .error _ => []

/-- The output row an order produces, as an `Option`. -/
def processedRowOpt2 (maps : SettlementMaps) (orderRow : JSRow) : Option JSRow :=
  match processOrder2 maps orderRow with
  | .ok p => some p.row
  | .error _ => none

/-- Does the order process without throwing? -/
def processedOk2 (maps : SettlementMaps) (orderRow : JSRow) : Bool :=
  match processOrder2 maps orderRow with
  | .ok _ => true
  | .error _ => false

/-- The four status counters, summed. -/
def statusSum (st : Stats2) : ℕ :=
  st.reconciled + st.mismatches + st.pendingRemittance + st.prepaidNoRemittance

/-- A well-formed COD order row (second-variant column layout). -/
def demoOrder1 : JSRow :=
  [.str "1001", .str "#3272", .str "2024-01-10", .str "A Customer", .str "cod",
   .num 1190, .str "paid", .str "fulfilled", .str "COD"]

/-- Another well-formed order row, prepaid. -/
def demoOrder2 : JSRow :=
  [.str "1005", .str "#3280", .str "2024-01-13", .str "D Customer", .str "razorpay",
   .num 750, .str "paid", .str "fulfilled", .str "Prepaid"]

/-- An order row whose processing throws: its paymentMethod slot holds a
number, and numbers have no `toLowerCase` method. -/
def demoOrderBad : JSRow :=
  [.str "1002", .str "#3273", .str "2024-01-11", .str "B Customer", .num 7,
   .num 500, .str "paid", .str "fulfilled", .str "Prepaid"]

/-- The malformed order of the claim: orderTotal is the string
"not-a-number" (which `parseFloat(·) || 0` coerces to 0 without
throwing). -/
def demoOrderNaN : JSRow :=
  [.str "1003", .str "#3274", .str "2024-01-12", .str "C Customer", .str "razorpay",
   .str "not-a-number", .str "paid", .str "fulfilled", .str "Prepaid"]

/-- The same order with a valid numeric total. -/
def demoOrderNaNFixed : JSRow :=
  [.str "1003", .str "#3274", .str "2024-01-12", .str "C Customer", .str "razorpay",
   .num 500, .str "paid", .str "fulfilled", .str "Prepaid"]

/-- `orderRow[7] || "Unknown"` — the cod_prepaid cell in the FIRST
variant's column layout (merge.js:84). -/
def codPrepaidVal1 (orderRow : JSRow) : JSVal :=
  jsOr (rowGet orderRow 7) (.str "Unknown")

/-- `orderRow[3] || ""` — the payment_method cell in the FIRST variant's
column layout (merge.js:83). -/
def paymentMethodVal1 (orderRow : JSRow) : JSVal :=
  jsOr (rowGet orderRow 3) (.str "")

/-- The statistics accumulator of the first variant (merge.js:69-77). -/
structure Stats1 where
  totalOrders : ℕ
  cod : ℕ
  prepaid : ℕ
  reconciled : ℕ
  mismatches : ℕ
  pendingRemittance : ℕ
  prepaidNoRemittance : ℕ
deriving DecidableEq

/-- One step of the first variant's settlement indexing loop
(merge.js:46-58): key on `String(row[0]).trim()`, skip empty keys,
last write wins. -/
def indexById1 (m : StrMap) (row : JSRow) : StrMap :=
  if (jsToString (rowGet row 0)).trim ≠ "" then
    mapSet m ((jsToString (rowGet row 0)).trim) row
  else m

/-- The first variant's `shiprocketMapById` (merge.js:42-58). -/
def buildShiprocketMapById (rows : List JSRow) : StrMap :=
  rows.foldl indexById1 emptyMap

/-- Does the first variant's classification succeed with COD? -/
def classifiesCod1 (orderRow : JSRow) : Bool :=
  match classifyCod (codPrepaidVal1 orderRow) (paymentMethodVal1 orderRow) with
  | .ok true => true
  | _ => false

/-- Does the first variant's classification succeed with prepaid? -/
def classifiesPrepaid1 (orderRow : JSRow) : Bool :=
  match classifyCod (codPrepaidVal1 orderRow) (paymentMethodVal1 orderRow) with
  | .ok false => true
  | _ => false

/-- One iteration of the FIRST variant's order loop (merge.js:79-163).
The extractions at merge.js:81-85 cannot throw on the modelled values;
the classification (merge.js:88-90) can throw a TypeError, caught by the
per-row handler before any increment.  After the cod/prepaid increments
(merge.js:92-96), the body evaluates `shiprocketMap.get(orderIdString)`
(merge.js:99) — but `shiprocketMap` is never defined in this variant
(only `shiprocketMapById` is built), so a ReferenceError is thrown and
caught by the handler (merge.js:157-162): the row-building code at
merge.js:100-156 is unreachable, no row is ever pushed, and the
increments already applied to the stats object persist. -/
def mergeStep1 (acc : List JSRow × Stats1) (orderRow : JSRow) :
    List JSRow × Stats1 :=
  match classifyCod (codPrepaidVal1 orderRow) (paymentMethodVal1 orderRow) with
  | .error _ => acc
  | .ok isCod =>
    let st := if isCod then {acc.2 with cod := acc.2.cod + 1}
      else {acc.2 with prepaid := acc.2.prepaid + 1}
    (acc.1, st)

/-- The first variant's `mergeDatasets` (merge.js:35-176).  The id map
is built but, by the undefined-variable slip, never consulted.  As for
the second variant, the final stats object is returned alongside the
reconciliation array. -/
def mergeDatasets1 (shopifyRows shiprocketRows : List JSRow) :
    List JSRow × Stats1 :=
  let _shiprocketMapById := buildShiprocketMapById shiprocketRows
  shopifyRows.foldl mergeStep1 ([], ⟨shopifyRows.length, 0, 0, 0, 0, 0, 0⟩)

/-- The success summary of `runReconciliation`
(reconcileRunner.js:50-58); the `"${...}s"` duration formatting is
elided in favour of the numeric value. -/
structure RunSummary where
  status : String
  durationSeconds : ℚ
  shopifyOrders : ℕ
  shiprocketRows : ℕ
  shiprocketCuts : ℕ
  reconciledRows : ℕ
deriving DecidableEq

/-- The error summary built in the catch block
(reconcileRunner.js:73-78): status "error", the elapsed duration, and
the originating error's message. -/
structure ErrorSummary where
  status : String
  durationSeconds : ℚ
  errorMessage : String
deriving DecidableEq

/-- Observable outcome of one orchestrator run: which `clearAndWriteSheet`
calls were attempted (in order), the value returned or error rethrown,
and the error summary logged by the catch block, if any. -/
structure RunOutcome where
  persistCalls : List (String × List JSRow)
  outcome : Except String RunSummary
  errorLog : Option ErrorSummary
deriving DecidableEq

/-- The sequential `await clearAndWriteSheet(...)` block
(reconcileRunner.js:42-45): each write is attempted in order; the first
failure stops the sequence and reports its error. -/
def runWrites (persist : String → List JSRow → Except String Unit) :
    List (String × List JSRow) → List (String × List JSRow) × Option String
  | [] => ([], none)
  | (n, d) :: rest =>
    match persist n d with
    | .error e => ([(n, d)], some e)
    | .ok _ =>
      let r := runWrites persist rest
      ((n, d) :: r.1, r.2)

/-- `runReconciliation` (reconcileRunner.js:12-87) with its collaborators
(the two fetchers, the cuts calculator, the persistence sink) as explicit
parameters and the elapsed wall-clock seconds `(endTime - startTime)/1000`
as a value.  The awaits are strictly sequential; any throw transfers
control to the catch block, which logs an error summary carrying the
duration and the error message and rethrows the original error. -/
def runReconciliation
    (fetchShopify fetchShiprocket fetchCuts : Except String (List JSRow))
    (persist : String → List JSRow → Except String Unit)
    (elapsedSeconds : ℚ) : RunOutcome :=
  match fetchShopify with
  | .error e => ⟨[], .error e, some ⟨"error", elapsedSeconds, e⟩⟩
  | .ok shopifyOrders =>
    match fetchShiprocket with
    | .error e => ⟨[], .error e, some ⟨"error", elapsedSeconds, e⟩⟩
    | .ok shiprocketSettlements =>
      match fetchCuts with
      | .error e => ⟨[], .error e, some ⟨"error", elapsedSeconds, e⟩⟩
      | .ok shiprocketCuts =>
        let reconciliationData := (mergeDatasets2 shopifyOrders shiprocketSettlements).1
        let wr := runWrites persist
          [("Shopify_Orders", shopifyOrders),
           ("Shiprocket_Settlements", shiprocketSettlements),
           ("Shiprocket_Cuts", shiprocketCuts),
           ("Reconciliation", reconciliationData)]
        match wr.2 with
        | some e => ⟨wr.1, .error e, some ⟨"error", elapsedSeconds, e⟩⟩
        | none =>
          ⟨wr.1,
            .ok ⟨"success", elapsedSeconds, shopifyOrders.length,
              shiprocketSettlements.length, shiprocketCuts.length,
              reconciliationData.length⟩,
            none⟩

end AmiySync

namespace AmiySync

/-- C1 counterexample: the claim says the Status Resolver with
`isCod = false` returns "Prepaid - No Remittance" for EVERY
settlement-presence flag and difference, but the second variant
(merge.js:184-196) returns "Reconciled" for a prepaid order with a
settlement and zero difference. -/
theorem determineStatus2_prepaid_with_settlement_not_noRemittance :
    determineStatus2 false true 0 = "Reconciled" ∧
      determineStatus2 false true 0 ≠ "Prepaid - No Remittance" := by
  constructor
  · with_unfolding_all decide
  · with_unfolding_all decide

/-- C1 (amended): in the first variant `isCod = false` always yields
"Prepaid - No Remittance"; in the second variant it does so only when no
settlement matched, while a prepaid order with a settlement is classified
by the 0.5 tolerance check exactly like a COD one. -/
theorem determineStatus_prepaid_rows :
    (∀ (hasSettlement : Bool) (d : ℚ),
        determineStatus1 false hasSettlement d = "Prepaid - No Remittance") ∧
      (∀ d : ℚ, determineStatus2 false false d = "Prepaid - No Remittance") ∧
      (∀ d : ℚ, determineStatus2 false true d =
        if jsAbs d < 1 / 2 then "Reconciled" else "Mismatch") := by
  refine ⟨fun hs d => rfl, fun d => rfl, fun d => ?_⟩
  unfold determineStatus2
  simp

/-- C6: the tolerance boundary of the Status Resolver is strict at 0.5:
for a COD order with a settlement the result is "Reconciled" iff
`|difference| < 0.5` and "Mismatch" otherwise, in both variants; in
particular 0.49 and -0.49 reconcile while 0.50 mismatches. -/
theorem determineStatus_tolerance_boundary :
    (∀ d : ℚ, determineStatus2 true true d =
        if jsAbs d < 1 / 2 then "Reconciled" else "Mismatch") ∧
      (∀ d : ℚ, determineStatus1 true true d =
        if jsAbs d < 1 / 2 then "Reconciled" else "Mismatch") ∧
      determineStatus2 true true (0.49 : ℚ) = "Reconciled" ∧
      determineStatus2 true true (0.50 : ℚ) = "Mismatch" ∧
      determineStatus2 true true (-(0.49) : ℚ) = "Reconciled" := by
  refine ⟨fun d => ?_, fun d => ?_, by with_unfolding_all decide,
    by with_unfolding_all decide, by with_unfolding_all decide⟩
  · unfold determineStatus2
    simp
  · unfold determineStatus1
    simp

/-- Appending one settlement row to the input shifts `lastKeyed` by one
overwrite step. -/
lemma lastKeyed_concat (key : JSRow → String) (rows : List JSRow) (r : JSRow)
    (k : String) :
    lastKeyed key (rows ++ [r]) k =
      if key r = k then some r else lastKeyed key rows k := by
  unfold lastKeyed
  rw [List.reverse_append]
  simp only [List.reverse_singleton, List.singleton_append, List.find?_cons]
  by_cases h : key r = k
  · simp [h]
  · rw [show (key r == k) = false from beq_eq_false_iff_ne.mpr h, if_neg h]

/-- One indexing step, seen through the cef-id lookup. -/
lemma indexSettlementRow_byCefId (maps : SettlementMaps) (r : JSRow) (k : String) :
    (indexSettlementRow maps r).byCefId k =
      if k ≠ "" ∧ cefKey r = k then some r else maps.byCefId k := by
  unfold indexSettlementRow mapSet
  by_cases h1 : cefKey r = "" <;> by_cases h2 : k = cefKey r <;> simp [h1, h2]
  · rw [if_neg (fun h => h.1 h.2.symm)]
  · rw [if_neg (fun h => h2 h.2.symm)]

/-- One indexing step, seen through the order-id lookup. -/
lemma indexSettlementRow_byOrderId (maps : SettlementMaps) (r : JSRow) (k : String) :
    (indexSettlementRow maps r).byOrderId k =
      if k ≠ "" ∧ orderIdKey r = k then some r else maps.byOrderId k := by
  unfold indexSettlementRow mapSet
  by_cases h1 : orderIdKey r = "" <;> by_cases h2 : k = orderIdKey r <;> simp [h1, h2]
  · rw [if_neg (fun h => h.1 h.2.symm)]
  · rw [if_neg (fun h => h2 h.2.symm)]

/-- One indexing step, seen through the ute lookup. -/
lemma indexSettlementRow_byUte (maps : SettlementMaps) (r : JSRow) (k : String) :
    (indexSettlementRow maps r).byUte k =
      if k ≠ "" ∧ uteKey r = k then some r else maps.byUte k := by
  unfold indexSettlementRow mapSet
  by_cases h1 : uteKey r = "" <;> by_cases h2 : k = uteKey r <;> simp [h1, h2]
  · rw [if_neg (fun h => h.1 h.2.symm)]
  · rw [if_neg (fun h => h2 h.2.symm)]

/-- The indexing fold, characterized per key for all three maps at once. -/
lemma foldl_indexSettlementRow_lookup (rows : List JSRow) (maps : SettlementMaps)
    (k : String) :
    ((rows.foldl indexSettlementRow maps).byCefId k =
        match (if k = "" then none else lastKeyed cefKey rows k) with
        | some r => some r
        | none => maps.byCefId k) ∧
      ((rows.foldl indexSettlementRow maps).byOrderId k =
        match (if k = "" then none else lastKeyed orderIdKey rows k) with
        | some r => some r
        | none => maps.byOrderId k) ∧
      ((rows.foldl indexSettlementRow maps).byUte k =
        match (if k = "" then none else lastKeyed uteKey rows k) with
        | some r => some r
        | none => maps.byUte k) := by
  induction rows using List.reverseRecOn generalizing maps with
  | nil =>
    refine ⟨?_, ?_, ?_⟩ <;> simp [lastKeyed]
  | append_singleton rows r ih =>
    have hfold : List.foldl indexSettlementRow maps (rows ++ [r]) =
        indexSettlementRow (List.foldl indexSettlementRow maps rows) r := by
      simp [List.foldl_append]
    obtain ⟨ih1, ih2, ih3⟩ := ih maps
    refine ⟨?_, ?_, ?_⟩
    · rw [hfold, indexSettlementRow_byCefId, lastKeyed_concat, ih1]
      by_cases h2 : k = "" <;> by_cases h3 : cefKey r = k <;> simp [h2, h3]
    · rw [hfold, indexSettlementRow_byOrderId, lastKeyed_concat, ih2]
      by_cases h2 : k = "" <;> by_cases h3 : orderIdKey r = k <;> simp [h2, h3]
    · rw [hfold, indexSettlementRow_byUte, lastKeyed_concat, ih3]
      by_cases h2 : k = "" <;> by_cases h3 : uteKey r = k <;> simp [h2, h3]

/-- C5: every non-empty trimmed key is bound, in exactly its own index, to
the last settlement row in input order carrying that key, and the empty
key never creates an entry, in all three indexes of the Settlement
Indexer. -/
theorem buildSettlementMaps_last_write_wins (rows : List JSRow) (k : String) :
    ((buildSettlementMaps rows).byCefId k =
        if k = "" then none else lastKeyed cefKey rows k) ∧
      ((buildSettlementMaps rows).byOrderId k =
        if k = "" then none else lastKeyed orderIdKey rows k) ∧
      ((buildSettlementMaps rows).byUte k =
        if k = "" then none else lastKeyed uteKey rows k) := by
  obtain ⟨h1, h2, h3⟩ :=
    foldl_indexSettlementRow_lookup rows ⟨emptyMap, emptyMap, emptyMap⟩ k
  unfold buildSettlementMaps
  refine ⟨?_, ?_, ?_⟩
  · rw [h1]; by_cases h : k = "" <;> simp [h, emptyMap] <;>
      cases lastKeyed cefKey rows k <;> rfl
  · rw [h2]; by_cases h : k = "" <;> simp [h, emptyMap] <;>
      cases lastKeyed orderIdKey rows k <;> rfl
  · rw [h3]; by_cases h : k = "" <;> simp [h, emptyMap] <;>
      cases lastKeyed uteKey rows k <;> rfl

/-- C3: given indexes with no entry at the empty key (as the Settlement
Indexer builds them), the Matcher is extensionally the three-way priority
cascade: cef-id lookup on the hash-stripped trimmed order name first,
then order-id lookup, then ute lookup on the unstripped name, with the
method string of the first hit, and `(none, "none")` when all three miss
— so a channel-id hit always beats a settlement-order-id hit. -/
theorem matchSettlement_priority (maps : SettlementMaps)
    (orderName orderIdString : String)
    (h1 : maps.byCefId "" = none) (h2 : maps.byOrderId "" = none)
    (h3 : maps.byUte "" = none) :
    matchSettlement maps orderName orderIdString =
      match maps.byCefId ((stripLeadingHash orderName).trim),
          maps.byOrderId orderIdString, maps.byUte orderName with
      | some r, _, _ => (some r, "channel_order_id")
      | none, some r, _ => (some r, "shiprocket_order_id")
      | none, none, some r => (some r, "ute")
      | none, none, none => (none, "none") := by
  have hname : (if orderName ≠ "" then (stripLeadingHash orderName).trim else "") =
      (stripLeadingHash orderName).trim := by
    by_cases hn : orderName = ""
    · subst hn
      with_unfolding_all decide
    · simp [hn]
  have hcef : (if (stripLeadingHash orderName).trim ≠ "" then
        maps.byCefId ((stripLeadingHash orderName).trim) else none) =
      maps.byCefId ((stripLeadingHash orderName).trim) := by
    by_cases hX : (stripLeadingHash orderName).trim = "" <;> simp [hX, h1]
  have hord : (if orderIdString ≠ "" then maps.byOrderId orderIdString else none) =
      maps.byOrderId orderIdString := by
    by_cases hi : orderIdString = "" <;> simp [hi, h2]
  have hut : (if orderName ≠ "" then maps.byUte orderName else none) =
      maps.byUte orderName := by
    by_cases hn : orderName = "" <;> simp [hn, h3]
  simp only [matchSettlement]
  rw [hname, hcef, hord, hut]
  cases maps.byCefId ((stripLeadingHash orderName).trim) <;>
    cases maps.byOrderId orderIdString <;> cases maps.byUte orderName <;> rfl

set_option maxRecDepth 10000 in
/-- C3 witness: on a settlement list offering a channel-id match (record
A via cef id "3272") and a settlement-order-id match (record B via order
id "999") for the same order, the Matcher returns the channel-id match. -/
theorem matchSettlement_priority_witness :
    matchSettlement (buildSettlementMaps demoSettlements) "#3272" "999" =
      (some demoSettlementA, "channel_order_id") := by
  have h := matchSettlement_priority (buildSettlementMaps demoSettlements)
    "#3272" "999" (by with_unfolding_all decide) (by with_unfolding_all decide)
    (by with_unfolding_all decide)
  rw [h]
  with_unfolding_all decide

/-- C2 counterexample: the claim says an order with paymentType "Prepaid"
and paymentMethod containing "cod" is classified Prepaid, but the Order
Classifier evaluates an OR of the two tests and classifies it COD. -/
theorem classifyCod_prepaid_overridden_by_method :
    classifyCod (JSVal.str "Prepaid") (JSVal.str "cod") = Except.ok true ∧
      classifyCod (JSVal.str "Prepaid") (JSVal.str "cod") ≠ Except.ok false := by
  constructor
  · with_unfolding_all decide
  · with_unfolding_all decide

/-- C2 (amended): for string-valued fields the Order Classifier returns
COD iff paymentType uppercased equals "COD" OR paymentMethod lowercased
contains the substring "cod"; the substring test is a disjunct consulted
for every order, not a fallback reserved for a missing or "Unknown"
paymentType. -/
theorem classifyCod_disjunctive (cp pm : String) :
    classifyCod (JSVal.str cp) (JSVal.str pm) = Except.ok true ↔
      (cp.toUpper = "COD" ∨ jsIncludes pm.toLower "cod" = true) := by
  unfold classifyCod jsToUpperCase jsToLowerCase
  by_cases h : cp.toUpper = "COD" <;>
    simp [h, Except.bind, bind, pure, Except.pure]

/-- C2 witness: paymentType "Prepaid" with paymentMethod "cod gateway" is
classified COD by the amended rule. -/
theorem classifyCod_disjunctive_witness :
    classifyCod (JSVal.str "Prepaid") (JSVal.str "cod gateway") = Except.ok true :=
  (classifyCod_disjunctive "Prepaid" "cod gateway").mpr
    (Or.inr (by with_unfolding_all decide))

/-- Rows accumulated by the merge fold: the accumulator followed by one
optional row per order, in input order. -/
lemma foldl_mergeStep2_rows (maps : SettlementMaps) (l : List JSRow)
    (acc : List JSRow × Stats2) :
    (l.foldl (mergeStep2 maps) acc).1 =
      acc.1 ++ l.filterMap (processedRowOpt2 maps) := by
  induction l generalizing acc with
  | nil => simp
  | cons r rest ih =>
    rw [List.foldl_cons, ih]
    cases h : processOrder2 maps r <;>
      simp [List.filterMap_cons, mergeStep2, processedRowOpt2, h]

/-- Emitted row count equals the count of orders that process without
throwing. -/
lemma length_filterMap_processedRowOpt2 (maps : SettlementMaps) (l : List JSRow) :
    (l.filterMap (processedRowOpt2 maps)).length = l.countP (processedOk2 maps) := by
  induction l with
  | nil => simp
  | cons r rest ih =>
    cases h : processOrder2 maps r <;>
      simp [List.filterMap_cons, List.countP_cons, processedRowOpt2, processedOk2, h, ih]

/-- When every order processes without throwing, the emitted rows are
exactly the per-order rows, in order. -/
lemma filterMap_eq_map_of_ok (maps : SettlementMaps) (l : List JSRow)
    (h : ∀ r ∈ l, processedOk2 maps r = true) :
    l.filterMap (processedRowOpt2 maps) = l.map (processedRow2 maps) := by
  induction l with
  | nil => simp
  | cons r rest ih =>
    have hr := h r (List.mem_cons_self r rest)
    have hrest : ∀ x ∈ rest, processedOk2 maps x = true :=
      fun x hx => h x (List.mem_cons_of_mem r hx)
    cases hp : processOrder2 maps r
    · simp [processedOk2, hp] at hr
    · simp [List.filterMap_cons, processedRowOpt2, processedRow2, hp, ih hrest]

/-- A throwing order contributes no output row. -/
lemma processedRowOpt2_eq_none (maps : SettlementMaps) (r : JSRow)
    (h : processedOk2 maps r = false) : processedRowOpt2 maps r = none := by
  unfold processedOk2 at h
  unfold processedRowOpt2
  cases hp : processOrder2 maps r
  · rfl
  · rw [hp] at h
    simp at h

/-- The class bump adds exactly one across the COD/prepaid partition. -/
lemma bumpClass2_cod_prepaid (st : Stats2) (b : Bool) :
    (bumpClass2 st b).cod + (bumpClass2 st b).prepaid = st.cod + st.prepaid + 1 := by
  cases b <;> simp [bumpClass2] <;> omega

lemma bumpClass2_statusSum (st : Stats2) (b : Bool) :
    statusSum (bumpClass2 st b) = statusSum st := by
  cases b <;> rfl

lemma bumpClass2_totalOrders (st : Stats2) (b : Bool) :
    (bumpClass2 st b).totalOrders = st.totalOrders := by
  cases b <;> rfl

lemma bumpMatch2_cod (st : Stats2) (mm : String) : (bumpMatch2 st mm).cod = st.cod := by
  unfold bumpMatch2
  split_ifs <;> rfl

lemma bumpMatch2_prepaid (st : Stats2) (mm : String) :
    (bumpMatch2 st mm).prepaid = st.prepaid := by
  unfold bumpMatch2
  split_ifs <;> rfl

lemma bumpMatch2_statusSum (st : Stats2) (mm : String) :
    statusSum (bumpMatch2 st mm) = statusSum st := by
  unfold bumpMatch2
  split_ifs <;> rfl

lemma bumpMatch2_totalOrders (st : Stats2) (mm : String) :
    (bumpMatch2 st mm).totalOrders = st.totalOrders := by
  unfold bumpMatch2
  split_ifs <;> rfl

lemma bumpStatus2_cod (st : Stats2) (s : String) : (bumpStatus2 st s).cod = st.cod := by
  unfold bumpStatus2
  split_ifs <;> rfl

lemma bumpStatus2_prepaid (st : Stats2) (s : String) :
    (bumpStatus2 st s).prepaid = st.prepaid := by
  unfold bumpStatus2
  split_ifs <;> rfl

lemma bumpStatus2_totalOrders (st : Stats2) (s : String) :
    (bumpStatus2 st s).totalOrders = st.totalOrders := by
  unfold bumpStatus2
  split_ifs <;> rfl

/-- The Status Resolver is total over the four statuses. -/
lemma determineStatus2_mem (isCod hasSettlement : Bool) (d : ℚ) :
    determineStatus2 isCod hasSettlement d = "Reconciled" ∨
      determineStatus2 isCod hasSettlement d = "Mismatch" ∨
      determineStatus2 isCod hasSettlement d = "Pending Remittance" ∨
      determineStatus2 isCod hasSettlement d = "Prepaid - No Remittance" := by
  unfold determineStatus2
  split_ifs <;> simp

/-- The status field of a processed order is one of the four statuses. -/
lemma processedOf2_status_mem (maps : SettlementMaps) (r : JSRow) (b : Bool) :
    (processedOf2 maps r b).status = "Reconciled" ∨
      (processedOf2 maps r b).status = "Mismatch" ∨
      (processedOf2 maps r b).status = "Pending Remittance" ∨
      (processedOf2 maps r b).status = "Prepaid - No Remittance" :=
  determineStatus2_mem _ _ _

/-- A successful `processOrder2` result is `processedOf2` at some flag. -/
lemma processOrder2_ok_shape (maps : SettlementMaps) (r : JSRow) (p : ProcessedOrder)
    (h : processOrder2 maps r = Except.ok p) : ∃ b, p = processedOf2 maps r b := by
  unfold processOrder2 at h
  cases hc : classifyCod (jsOr (rowGet r 8) (.str "Unknown")) (jsOr (rowGet r 4) (.str "")) <;>
    rw [hc] at h <;> simp at h
  exact ⟨_, h.symm⟩

/-- Bumping with one of the four statuses adds exactly one to the status
counters' sum. -/
lemma bumpStatus2_sum_add_one (st : Stats2) (s : String)
    (h : s = "Reconciled" ∨ s = "Mismatch" ∨ s = "Pending Remittance" ∨
      s = "Prepaid - No Remittance") :
    statusSum (bumpStatus2 st s) = statusSum st + 1 := by
  rcases h with h | h | h | h <;> subst h <;> simp [bumpStatus2, statusSum] <;> omega

/-- Through the fold, cod + prepaid grows by one per non-throwing order. -/
lemma foldl_mergeStep2_cod_prepaid (maps : SettlementMaps) (l : List JSRow)
    (acc : List JSRow × Stats2) :
    (l.foldl (mergeStep2 maps) acc).2.cod + (l.foldl (mergeStep2 maps) acc).2.prepaid =
      acc.2.cod + acc.2.prepaid + l.countP (processedOk2 maps) := by
  induction l generalizing acc with
  | nil => simp
  | cons r rest ih =>
    rw [List.foldl_cons, ih, List.countP_cons]
    cases h : processOrder2 maps r with
    | error e => simp [mergeStep2, processedOk2, h]
    | ok p =>
      simp only [mergeStep2, h, processedOk2]
      rw [bumpStatus2_cod, bumpStatus2_prepaid, bumpMatch2_cod, bumpMatch2_prepaid]
      have hb := bumpClass2_cod_prepaid acc.2 p.isCod
      simp
      omega

/-- Through the fold, the status counters' sum grows by one per
non-throwing order. -/
lemma foldl_mergeStep2_statusSum (maps : SettlementMaps) (l : List JSRow)
    (acc : List JSRow × Stats2) :
    statusSum (l.foldl (mergeStep2 maps) acc).2 =
      statusSum acc.2 + l.countP (processedOk2 maps) := by
  induction l generalizing acc with
  | nil => simp
  | cons r rest ih =>
    rw [List.foldl_cons, ih, List.countP_cons]
    cases h : processOrder2 maps r with
    | error e => simp [mergeStep2, processedOk2, h]
    | ok p =>
      obtain ⟨b, rfl⟩ := processOrder2_ok_shape maps r p h
      simp only [mergeStep2, h, processedOk2]
      rw [bumpStatus2_sum_add_one _ _ (processedOf2_status_mem maps r b),
        bumpMatch2_statusSum, bumpClass2_statusSum]
      simp
      omega

/-- The fold never touches totalOrders. -/
lemma foldl_mergeStep2_totalOrders (maps : SettlementMaps) (l : List JSRow)
    (acc : List JSRow × Stats2) :
    (l.foldl (mergeStep2 maps) acc).2.totalOrders = acc.2.totalOrders := by
  induction l generalizing acc with
  | nil => rfl
  | cons r rest ih =>
    rw [List.foldl_cons, ih]
    cases h : processOrder2 maps r with
    | error e => simp [mergeStep2, h]
    | ok p =>
      simp [mergeStep2, h, bumpStatus2_totalOrders, bumpMatch2_totalOrders,
        bumpClass2_totalOrders]

/-- C10: on return from the second variant, cod + prepaid equals the
number of emitted rows, the four status counters also sum to that number
(a skipped order is counted in neither partition, since its exception
precedes every increment), and totalOrders still counts every input
order. -/
theorem mergeDatasets2_counters_partition (sh sr : List JSRow) :
    (mergeDatasets2 sh sr).2.cod + (mergeDatasets2 sh sr).2.prepaid =
        (mergeDatasets2 sh sr).1.length ∧
      statusSum (mergeDatasets2 sh sr).2 = (mergeDatasets2 sh sr).1.length ∧
      (mergeDatasets2 sh sr).2.totalOrders = sh.length := by
  simp only [mergeDatasets2]
  refine ⟨?_, ?_, ?_⟩
  · rw [foldl_mergeStep2_cod_prepaid, foldl_mergeStep2_rows, List.nil_append,
      length_filterMap_processedRowOpt2]
    simp
  · rw [foldl_mergeStep2_statusSum, foldl_mergeStep2_rows, List.nil_append,
      length_filterMap_processedRowOpt2]
    simp [statusSum]
  · rw [foldl_mergeStep2_totalOrders]

/-- C7: when every order record processes without throwing, the output
row sequence is exactly the per-order row of each input record, in input
order — no reordering and no deduplication (duplicate orders each yield
their own row). -/
theorem mergeDatasets2_row_order (sh sr : List JSRow)
    (h : ∀ r ∈ sh, processedOk2 (buildSettlementMaps sr) r = true) :
    (mergeDatasets2 sh sr).1 = sh.map (processedRow2 (buildSettlementMaps sr)) ∧
      (mergeDatasets2 sh sr).1.length = sh.length := by
  have hm := filterMap_eq_map_of_ok (buildSettlementMaps sr) sh h
  simp only [mergeDatasets2]
  rw [foldl_mergeStep2_rows, List.nil_append, hm]
  simp

/-- C7 witness: a duplicated order yields one row per occurrence, in
order. -/
theorem mergeDatasets2_row_order_witness :
    (mergeDatasets2 [demoOrder1, demoOrder1] []).1 =
        [demoOrder1, demoOrder1].map (processedRow2 (buildSettlementMaps [])) ∧
      (mergeDatasets2 [demoOrder1, demoOrder1] []).1.length = 2 :=
  mergeDatasets2_row_order [demoOrder1, demoOrder1] []
    (by with_unfolding_all decide)

/-- C4 counterexample: an order whose orderTotal is "not-a-number" does
NOT throw — `parseFloat(...) || 0` coerces it to 0 — so it still emits a
row: with it malformed the batch of three yields 3 rows, and with it
valid the same batch also yields 3 rows; the count does not decrease. -/
theorem malformed_total_not_skipped :
    (mergeDatasets2 [demoOrder1, demoOrderNaN, demoOrder2] []).1.length = 3 ∧
      (mergeDatasets2 [demoOrder1, demoOrderNaNFixed, demoOrder2] []).1.length = 3 ∧
      processedOk2 (buildSettlementMaps []) demoOrderNaN = true := by
  refine ⟨?_, ?_, ?_⟩ <;> with_unfolding_all decide

/-- C4 (amended): an order whose processing throws (e.g. a non-string
paymentMethod, which has no `toLowerCase`) is skipped while every other
valid order still produces its row, so the output count drops by exactly
one; a "not-a-number" orderTotal is not such a throw. -/
theorem mergeDatasets2_fault_isolation (pre post : List JSRow) (bad : JSRow)
    (sr : List JSRow)
    (hbad : processedOk2 (buildSettlementMaps sr) bad = false)
    (hok : ∀ r ∈ pre ++ post, processedOk2 (buildSettlementMaps sr) r = true) :
    (mergeDatasets2 (pre ++ bad :: post) sr).1 = (mergeDatasets2 (pre ++ post) sr).1 ∧
      (mergeDatasets2 (pre ++ bad :: post) sr).1.length + 1 =
        (pre ++ bad :: post).length := by
  have hpre : ∀ r ∈ pre, processedOk2 (buildSettlementMaps sr) r = true :=
    fun r hr => hok r (List.mem_append_left post hr)
  have hpost : ∀ r ∈ post, processedOk2 (buildSettlementMaps sr) r = true :=
    fun r hr => hok r (List.mem_append_right pre hr)
  have hnone := processedRowOpt2_eq_none (buildSettlementMaps sr) bad hbad
  constructor
  · simp only [mergeDatasets2]
    rw [foldl_mergeStep2_rows, foldl_mergeStep2_rows, List.nil_append, List.nil_append,
      List.filterMap_append, List.filterMap_append, List.filterMap_cons, hnone]
  · simp only [mergeDatasets2]
    rw [foldl_mergeStep2_rows, List.nil_append, List.filterMap_append,
      List.filterMap_cons, hnone, filterMap_eq_map_of_ok _ _ hpre,
      filterMap_eq_map_of_ok _ _ hpost]
    simp
    omega

/-- C4 witness: one throwing order (numeric paymentMethod) among two
valid ones is skipped, the others' rows survive, and the count drops by
exactly one. -/
theorem mergeDatasets2_fault_isolation_witness :
    (mergeDatasets2 ([demoOrder1] ++ demoOrderBad :: [demoOrder2]) []).1 =
        (mergeDatasets2 ([demoOrder1] ++ [demoOrder2]) []).1 ∧
      (mergeDatasets2 ([demoOrder1] ++ demoOrderBad :: [demoOrder2]) []).1.length + 1 =
        ([demoOrder1] ++ demoOrderBad :: [demoOrder2]).length :=
  mergeDatasets2_fault_isolation [demoOrder1] [demoOrder2] demoOrderBad []
    (by with_unfolding_all decide) (by with_unfolding_all decide)

/-- The first variant's fold: no rows, cod/prepaid counts by successful
classification, totalOrders untouched. -/
lemma foldl_mergeStep1 (l : List JSRow) (acc : List JSRow × Stats1) :
    (l.foldl mergeStep1 acc).1 = acc.1 ∧
      (l.foldl mergeStep1 acc).2.cod = acc.2.cod + l.countP classifiesCod1 ∧
      (l.foldl mergeStep1 acc).2.prepaid = acc.2.prepaid + l.countP classifiesPrepaid1 ∧
      (l.foldl mergeStep1 acc).2.totalOrders = acc.2.totalOrders := by
  induction l generalizing acc with
  | nil => simp
  | cons r rest ih =>
    rw [List.foldl_cons]
    obtain ⟨ih1, ih2, ih3, ih4⟩ := ih (mergeStep1 acc r)
    rw [ih1, ih2, ih3, ih4, List.countP_cons, List.countP_cons]
    cases h : classifyCod (codPrepaidVal1 r) (paymentMethodVal1 r) with
    | error e =>
      simp [mergeStep1, classifiesCod1, classifiesPrepaid1, h]
    | ok b =>
      cases b <;>
        simp [mergeStep1, classifiesCod1, classifiesPrepaid1, h] <;> omega

/-- C9: in the first variant every per-order settlement lookup reads the
undefined `shiprocketMap` and throws, the per-row catch swallows it, so
for every input the reconciliation list comes back empty while the
COD/prepaid counters (incremented before the lookup) still reflect the
classification of the input, and totalOrders counts every input row. -/
theorem mergeDatasets1_always_empty (sh sr : List JSRow) :
    (mergeDatasets1 sh sr).1 = [] ∧
      (mergeDatasets1 sh sr).2.cod = sh.countP classifiesCod1 ∧
      (mergeDatasets1 sh sr).2.prepaid = sh.countP classifiesPrepaid1 ∧
      (mergeDatasets1 sh sr).2.totalOrders = sh.length := by
  obtain ⟨h1, h2, h3, h4⟩ := foldl_mergeStep1 sh ([], ⟨sh.length, 0, 0, 0, 0, 0, 0⟩)
  exact ⟨h1, by rw [mergeDatasets1]; exact h2.trans (by simp),
    by rw [mergeDatasets1]; exact h3.trans (by simp),
    by rw [mergeDatasets1]; exact h4⟩

/-- C8: a failure of either fetch aborts the run before any persist call,
the original error value is rethrown to the caller unmodified, and the
catch block's error summary carries the elapsed duration together with
that error message. -/
theorem runReconciliation_fetch_failure
    (fetchShopify fetchShiprocket fetchCuts : Except String (List JSRow))
    (persist : String → List JSRow → Except String Unit)
    (elapsedSeconds : ℚ) (e : String)
    (h : fetchShopify = Except.error e ∨
      ((∃ v, fetchShopify = Except.ok v) ∧ fetchShiprocket = Except.error e)) :
    (runReconciliation fetchShopify fetchShiprocket fetchCuts persist
        elapsedSeconds).persistCalls = [] ∧
      (runReconciliation fetchShopify fetchShiprocket fetchCuts persist
        elapsedSeconds).outcome = Except.error e ∧
      (runReconciliation fetchShopify fetchShiprocket fetchCuts persist
        elapsedSeconds).errorLog = some ⟨"error", elapsedSeconds, e⟩ := by
  rcases h with h | ⟨⟨v, hv⟩, h2⟩
  · subst h
    exact ⟨rfl, rfl, rfl⟩
  · subst hv
    subst h2
    exact ⟨rfl, rfl, rfl⟩

/-- C8 witness: a failing settlement fetch yields no persist calls, the
same error rethrown, and an error summary with the elapsed duration. -/
theorem runReconciliation_fetch_failure_witness :
    (runReconciliation (Except.ok [demoOrder1]) (Except.error "Shiprocket API error")
        (Except.ok []) (fun _ _ => Except.ok ()) 2).persistCalls = [] ∧
      (runReconciliation (Except.ok [demoOrder1]) (Except.error "Shiprocket API error")
        (Except.ok []) (fun _ _ => Except.ok ()) 2).outcome =
        Except.error "Shiprocket API error" ∧
      (runReconciliation (Except.ok [demoOrder1]) (Except.error "Shiprocket API error")
        (Except.ok []) (fun _ _ => Except.ok ()) 2).errorLog =
        some ⟨"error", 2, "Shiprocket API error"⟩ :=
  runReconciliation_fetch_failure (Except.ok [demoOrder1])
    (Except.error "Shiprocket API error") (Except.ok []) (fun _ _ => Except.ok ()) 2
    "Shiprocket API error" (Or.inr ⟨⟨[demoOrder1], rfl⟩, rfl⟩)

end AmiySync
